import Mathlib

/-!
# Verification of the Citicious citation-verification engine

A shallow embedding, in Lean 4, of the core logic of the Citicious
repository (backend services plus browser-extension client), together with
theorems settling the behavioural claims about it.

Embedding conventions:
* TypeScript strings are Lean `String`s; the character-level operations
  (`toLowerCase`, `trim`, regex prefix / trailing-punctuation stripping)
  are modelled on `List Char`.
* JavaScript numbers are modelled as `ℚ` (all constants involved are
  exact decimals); years are `Int`.
* JavaScript truthiness on optional strings / numbers is modelled
  explicitly (`truthyStr`, empty string and year 0 are falsy).
* Network effects are modelled by passing the outcome of each `fetch`
  (or of each whole source lookup) as an explicit argument.
* The external `string-similarity-js` function used by the backend is not
  part of the repository; backend definitions are parameterised over it
  (`sim`).  The extension's own word-overlap similarity is in the
  repository and is embedded concretely.
-/

namespace Citicious

/-! ## Character / string level helpers (shared by the normalizers) -/

/-- `toLowerCase` on the character list of a string. -/
def lowerChars (l : List Char) : List Char := l.map Char.toLower

/-- Drop characters satisfying `p` from the end of a list. -/
def dropTrailing (p : Char → Bool) (l : List Char) : List Char :=
  (l.reverse.dropWhile p).reverse

/-- JavaScript `String.prototype.trim`: strip surrounding whitespace. -/
def trimChars (l : List Char) : List Char :=
  dropTrailing Char.isWhitespace (l.dropWhile Char.isWhitespace)

/-- The 16-character prefix `https://doi.org/`. -/
def httpsDoiOrg : List Char := "https://doi.org/".data

/-- The 15-character prefix `http://doi.org/`. -/
def httpDoiOrg : List Char := "http://doi.org/".data

/-- `replace(/^https?:\/\/doi\.org\//i, '')` applied to an already
lowercased string: strip one leading `http(s)://doi.org/`. -/
def dropDoiOrg (l : List Char) : List Char :=
  if l.take 16 = httpsDoiOrg then l.drop 16
  else if l.take 15 = httpDoiOrg then l.drop 15
  else l

/-- Trailing punctuation stripped by the free-text DOI extractor:
`[.,;:)\]\x7d>]+$`. -/
def isTrailingPunct (c : Char) : Bool :=
  c = '.' || c = ',' || c = ';' || c = ':' || c = ')' || c = ']' ||
  c = '\x7d' || c = '>'

/-! ## Identifier normalizers -/

namespace CrossRefService

/-- `crossref.service.ts` (and identically `openalex.service.ts` and the
extension's `api-client.ts`):
`doi.toLowerCase().trim().replace(/^https?:\/\/doi\.org\//i, '')`. -/
def normalizeDoi (doi : String) : String :=
  String.mk (dropDoiOrg (trimChars (lowerChars doi.data)))

end CrossRefService

namespace DoiExtractor

/-- `doi-extractor.ts`: lowercase, trim, then remove trailing punctuation
`[.,;:)\]\x7d>]+$` (no protocol-prefix stripping). -/
def normalizeDoi (doi : String) : String :=
  String.mk (dropTrailing isTrailingPunct (trimChars (lowerChars doi.data)))

end DoiExtractor

/-! ## Data model (`types.ts`) -/

/-- Discrepancy severity. -/
inductive Severity
  | minor
  | major
  | critical
deriving DecidableEq

/-- The field a discrepancy is about. -/
inductive FieldName
  | title
  | year
  | authors
  | journal
  | doi
  | url
deriving DecidableEq

/-- A detected mismatch between provided and retrieved metadata. -/
structure Discrepancy where
  field : FieldName
  provided : String
  actual : String
  severity : Severity
deriving DecidableEq

/-- Which source confirmed the work. -/
inductive Source
  | crossref
  | openalex
  | none
deriving DecidableEq

/-- Union of the status strings appearing in the current backend/extension
code (`'verified' | 'retracted' | 'concern' | 'correction' | 'fake-likely'
| 'fake-probably' | 'skip' | 'checking'`, plus the `'unknown'` literal
returned by the batch route). -/
inductive CitationStatus
  | verified
  | retracted
  | concern
  | correction
  | fakeLikely
  | fakeProbably
  | skip
  | checking
  | unknown
deriving DecidableEq

/-- Author entry of `MatchedData` / `CrossRefWork`
(`\x7b name; given?; family? \x7d`). -/
structure AuthorName where
  name : String
  given : Option String
  family : Option String
deriving DecidableEq

/-- `CrossRefWork` (already transformed to the common shape). -/
structure CrossRefWork where
  doi : String
  title : String
  authors : List AuthorName
  year : Int
  journal : String
  publisher : Option String
  type : Option String
  volume : Option String
  issue : Option String
  pages : Option String
deriving DecidableEq

/-- `OpenAlexWork` author entry. -/
structure OpenAlexAuthor where
  name : String
  orcid : Option String
deriving DecidableEq

/-- `OpenAlexWork` (already transformed to the common shape). -/
structure OpenAlexWork where
  doi : String
  title : String
  authors : List OpenAlexAuthor
  year : Int
  journal : String
  openAlexId : String
  citedByCount : Option Int
deriving DecidableEq

/-- `CitationInput`: all fields optional; an absent list is the empty
list. -/
structure CitationInput where
  doi : Option String
  pmid : Option String
  url : Option String
  title : Option String
  authors : List String
  year : Option Int
  journal : Option String
deriving DecidableEq

/-- `MatchedData`. -/
structure MatchedData where
  doi : String
  title : String
  authors : List AuthorName
  year : Int
  journal : String
  publisher : Option String
  type : Option String
  volume : Option String
  issue : Option String
  pages : Option String
deriving DecidableEq

/-- `CitationValidationResponse` (the backend `VerificationResult`);
the TypeScript field `exists` is `exists_` here (`exists` is a Lean
keyword). -/
structure CitationValidationResponse where
  exists_ : Bool
  confidence : ℚ
  source : Source
  matchedData : Option MatchedData
  discrepancies : List Discrepancy
  status : CitationStatus
deriving DecidableEq

/-- JavaScript truthiness of an optional string: `undefined` and `""` are
falsy. -/
def truthyStr : Option String → Bool
  | Option.none => false
  | some s => !s.isEmpty

/-- JavaScript truthiness of an optional number: `undefined` and `0` are
falsy. -/
def truthyYear : Option Int → Bool
  | Option.none => false
  | some y => y != 0

/-- `CrossRefLookupResult`: the three-way outcome of a CrossRef lookup. -/
inductive CrossRefLookupResult
  | found (work : CrossRefWork)
  | not_found
  | error (message : String)
deriving DecidableEq

/-- `OpenAlexLookupResult`: the three-way outcome of an OpenAlex lookup. -/
inductive OpenAlexLookupResult
  | found (work : OpenAlexWork)
  | not_found
  | error (message : String)
deriving DecidableEq

/-! ## Backend citation validator (`citation-validator.service.ts`,
current generation).

All definitions are parameterised by `sim`, the external
`string-similarity-js` function. -/

namespace CitationValidatorService

/-- `compareMetadata(provided, actual)`: per-field discrepancies, in
source order (title, year, first author, journal).  Fields missing (or
falsy) on either side are skipped. -/
def compareMetadata (sim : String → String → ℚ) (provided : CitationInput)
    (actual : MatchedData) : List Discrepancy :=
  let titleDiscs :=
    match provided.title with
    | some t =>
      if !t.isEmpty && !actual.title.isEmpty then
        let titleSimilarity := sim t.toLower actual.title.toLower
        if titleSimilarity < (9 : ℚ)/10 then
          [⟨FieldName.title, t, actual.title,
            if titleSimilarity < (1 : ℚ)/2 then Severity.critical else Severity.major⟩]
        else []
      else []
    | Option.none => []
  let yearDiscs :=
    match provided.year with
    | some y =>
      if y != 0 && actual.year != 0 && y != actual.year then
        [⟨FieldName.year, toString y, toString actual.year,
          if (y - actual.year).natAbs > 2 then Severity.major else Severity.minor⟩]
      else []
    | Option.none => []
  let authorDiscs :=
    match provided.authors, actual.authors with
    | providedFirst :: _, actualFirst :: _ =>
      let authorSimilarity := sim providedFirst.toLower actualFirst.name.toLower
      if authorSimilarity < (7 : ℚ)/10 then
        [⟨FieldName.authors, providedFirst, actualFirst.name, Severity.major⟩]
      else []
    | _, _ => []
  let journalDiscs :=
    match provided.journal with
    | some j =>
      if !j.isEmpty && !actual.journal.isEmpty then
        let journalSimilarity := sim j.toLower actual.journal.toLower
        if journalSimilarity < (7 : ℚ)/10 then
          [⟨FieldName.journal, j, actual.journal, Severity.minor⟩]
        else []
      else []
    | Option.none => []
  titleDiscs ++ yearDiscs ++ authorDiscs ++ journalDiscs

/-- Per-discrepancy confidence penalty (`switch (d.severity)`). -/
def severityPenalty : Severity → ℚ
  | Severity.critical => (1 : ℚ)/2
  | Severity.major => (1 : ℚ)/5
  | Severity.minor => (1 : ℚ)/20

/-- `calculateConfidence(discrepancies)`: start at 1.0, subtract the
penalty of each discrepancy, clamp to `[0,1]` at the end. -/
def calculateConfidence (discrepancies : List Discrepancy) : ℚ :=
  let confidence := discrepancies.foldl (fun c d => c - severityPenalty d.severity) 1
  max 0 (min 1 confidence)

/-- `getMetadataBasedStatus(confidence, discrepancies)`: the fuzzy-match
status classifier. -/
def getMetadataBasedStatus (confidence : ℚ)
    (discrepancies : List Discrepancy) : CitationStatus :=
  let hasCritical := discrepancies.any (fun d => d.severity == Severity.critical)
  let hasMajor := discrepancies.any (fun d => d.severity == Severity.major)
  if decide (confidence ≥ (4 : ℚ)/5) && !hasCritical && !hasMajor then
    CitationStatus.verified
  else if (discrepancies.find? (fun d =>
      d.field == FieldName.title && d.severity == Severity.critical)).isSome then
    CitationStatus.fakeLikely
  else if hasMajor &&
      ((discrepancies.find? (fun d => d.field == FieldName.year)).isSome ||
       (discrepancies.find? (fun d => d.field == FieldName.authors)).isSome) then
    CitationStatus.fakeProbably
  else if decide (confidence ≥ (7 : ℚ)/10) then
    CitationStatus.verified
  else
    CitationStatus.skip

/-- `crossrefToMatchedData`. -/
def crossrefToMatchedData (work : CrossRefWork) : MatchedData :=
  ⟨work.doi, work.title, work.authors, work.year, work.journal,
    work.publisher, work.type, work.volume, work.issue, work.pages⟩

/-- `openalexToMatchedData`. -/
def openalexToMatchedData (work : OpenAlexWork) : MatchedData :=
  ⟨work.doi, work.title,
    work.authors.map (fun a => ⟨a.name, Option.none, Option.none⟩),
    work.year, work.journal,
    Option.none, Option.none, Option.none, Option.none, Option.none⟩

/-- The candidate score accumulated by `findBestCrossRefMatch` /
`findBestOpenAlexMatch`: `0.5·titleSim + 0.3·firstAuthorSim +
0.2·[years equal]`, each term guarded by field presence. -/
def matchScore (sim : String → String → ℚ) (citation : CitationInput)
    (title : String) (authors : List String) (year : Int) : ℚ :=
  let score : ℚ := 0
  let score := score +
    (match citation.title with
     | some t =>
       if !t.isEmpty && !title.isEmpty then
         sim t.toLower title.toLower * ((1 : ℚ)/2)
       else 0
     | Option.none => 0)
  let score := score +
    (match citation.authors, authors with
     | citationFirst :: _, workFirst :: _ =>
       sim citationFirst.toLower workFirst.toLower * ((3 : ℚ)/10)
     | _, _ => 0)
  let score := score +
    (match citation.year with
     | some y => if y != 0 && year != 0 && y == year then (1 : ℚ)/5 else 0
     | Option.none => 0)
  score

/-- `findBestCrossRefMatch`: linear scan keeping the strictly best score
(ties keep the first-seen candidate). -/
def findBestCrossRefMatch (sim : String → String → ℚ)
    (citation : CitationInput) (works : List CrossRefWork) :
    Option (CrossRefWork × ℚ) :=
  works.foldl
    (fun bestMatch work =>
      let score := matchScore sim citation work.title
        (work.authors.map (fun a => a.name)) work.year
      match bestMatch with
      | Option.none => some (work, score)
      | some bm => if score > bm.2 then some (work, score) else bestMatch)
    Option.none

/-- `findBestOpenAlexMatch`. -/
def findBestOpenAlexMatch (sim : String → String → ℚ)
    (citation : CitationInput) (works : List OpenAlexWork) :
    Option (OpenAlexWork × ℚ) :=
  works.foldl
    (fun bestMatch work =>
      let score := matchScore sim citation work.title
        (work.authors.map (fun a => a.name)) work.year
      match bestMatch with
      | Option.none => some (work, score)
      | some bm => if score > bm.2 then some (work, score) else bestMatch)
    Option.none

/-- `validateByDoi(citation)`: the DOI fallback orchestrator.  The two
network lookups are passed in as their three-way outcomes
(`crossrefService.getWork(citation.doi!)` and
`openalexService.getWork(citation.doi!)`). -/
def validateByDoi (sim : String → String → ℚ) (citation : CitationInput)
    (crossrefResult : CrossRefLookupResult)
    (openalexResult : OpenAlexLookupResult) : CitationValidationResponse :=
  match crossrefResult with
  | CrossRefLookupResult.found work =>
    let matchedData := crossrefToMatchedData work
    let discrepancies := compareMetadata sim citation matchedData
    ⟨true, 1, Source.crossref, some matchedData, discrepancies,
      CitationStatus.verified⟩
  | CrossRefLookupResult.not_found =>
    match openalexResult with
    | OpenAlexLookupResult.found work =>
      let matchedData := openalexToMatchedData work
      let discrepancies := compareMetadata sim citation matchedData
      ⟨true, 1, Source.openalex, some matchedData, discrepancies,
        CitationStatus.verified⟩
    | OpenAlexLookupResult.not_found =>
      ⟨false, 0, Source.none, Option.none,
        [⟨FieldName.doi, citation.doi.getD "", "NOT FOUND", Severity.critical⟩],
        CitationStatus.fakeLikely⟩
    | OpenAlexLookupResult.error _ =>
      ⟨false, 0, Source.none, Option.none,
        [⟨FieldName.doi, citation.doi.getD "",
          "NOT FOUND IN CROSSREF, OPENALEX ERROR", Severity.critical⟩],
        CitationStatus.fakeLikely⟩
  | CrossRefLookupResult.error _ =>
    match openalexResult with
    | OpenAlexLookupResult.found work =>
      let matchedData := openalexToMatchedData work
      let discrepancies := compareMetadata sim citation matchedData
      ⟨true, 1, Source.openalex, some matchedData, discrepancies,
        CitationStatus.verified⟩
    | OpenAlexLookupResult.not_found =>
      ⟨false, 0, Source.none, Option.none,
        [⟨FieldName.doi, citation.doi.getD "", "NOT FOUND", Severity.critical⟩],
        CitationStatus.fakeLikely⟩
    | OpenAlexLookupResult.error _ =>
      ⟨false, 0, Source.none, Option.none, [], CitationStatus.skip⟩

/-- `validateByMetadata(citation)`: fuzzy search fallback for DOI-less
citations.  The OpenAlex search results and the CrossRef search results
(used only when the former are empty) are passed in. -/
def validateByMetadata (sim : String → String → ℚ) (citation : CitationInput)
    (openalexSearchResults : List OpenAlexWork)
    (crossrefSearchResults : List CrossRefWork) : CitationValidationResponse :=
  if !truthyStr citation.title then
    ⟨false, 0, Source.none, Option.none, [], CitationStatus.skip⟩
  else if openalexSearchResults.isEmpty then
    match (if crossrefSearchResults.isEmpty then Option.none
           else findBestCrossRefMatch sim citation crossrefSearchResults) with
    | some bestMatch =>
      if bestMatch.2 > (7 : ℚ)/10 then
        let matchedData := crossrefToMatchedData bestMatch.1
        let discrepancies := compareMetadata sim citation matchedData
        ⟨true, bestMatch.2, Source.crossref, some matchedData, discrepancies,
          getMetadataBasedStatus bestMatch.2 discrepancies⟩
      else
        ⟨false, 0, Source.none, Option.none, [], CitationStatus.skip⟩
    | Option.none =>
      ⟨false, 0, Source.none, Option.none, [], CitationStatus.skip⟩
  else
    match findBestOpenAlexMatch sim citation openalexSearchResults with
    | some bestMatch =>
      if bestMatch.2 > (7 : ℚ)/10 then
        let matchedData := openalexToMatchedData bestMatch.1
        let discrepancies := compareMetadata sim citation matchedData
        ⟨true, bestMatch.2, Source.openalex, some matchedData, discrepancies,
          getMetadataBasedStatus bestMatch.2 discrepancies⟩
      else
        ⟨false, bestMatch.2, Source.none, Option.none, [], CitationStatus.skip⟩
    | Option.none =>
      ⟨false, 0, Source.none, Option.none, [], CitationStatus.skip⟩

/-- `validate(citation)`: DOI lookup when a (truthy) DOI is present,
fuzzy metadata search otherwise. -/
def validate (sim : String → String → ℚ) (citation : CitationInput)
    (crossrefResult : CrossRefLookupResult)
    (openalexResult : OpenAlexLookupResult)
    (openalexSearchResults : List OpenAlexWork)
    (crossrefSearchResults : List CrossRefWork) : CitationValidationResponse :=
  if truthyStr citation.doi then
    validateByDoi sim citation crossrefResult openalexResult
  else
    validateByMetadata sim citation openalexSearchResults crossrefSearchResults

end CitationValidatorService

/-! ## Source clients: `getWork` (`crossref.service.ts`,
`openalex.service.ts`, and the legacy null-returning CrossRef variant).

A single `fetch` (followed by body parsing and payload transformation) is
modelled by `FetchOutcome`: either the call threw (`exn`: network
failure, timeout), or it returned an HTTP status together with the work
the 2xx body transforms to (`Option.none` body = malformed payload, i.e.
`response.json()` / the transform would throw). -/

/-- Outcome of one `fetch` + parse + transform, for a work payload of
type `α`. -/
inductive FetchOutcome (α : Type)
  | exn
  | resp (status : Nat) (body : Option α)
deriving DecidableEq

/-- `response.ok`: HTTP status in `[200, 300)`. -/
def respOk (status : Nat) : Bool := 200 ≤ status && status < 300

namespace CrossRefService

/-- `getWork(doi)` of the current `crossref.service.ts`: 404 →
`not_found`; any other non-ok status → `error`; malformed body or thrown
exception → `error`; otherwise `found`. -/
def getWork (o : FetchOutcome CrossRefWork) : CrossRefLookupResult :=
  match o with
  | FetchOutcome.exn => CrossRefLookupResult.error "Unknown error"
  | FetchOutcome.resp status body =>
    if status == 404 then CrossRefLookupResult.not_found
    else if !respOk status then
      CrossRefLookupResult.error ("CrossRef API error: " ++ toString status)
    else
      match body with
      | some work => CrossRefLookupResult.found work
      | Option.none => CrossRefLookupResult.error "Unknown error"

end CrossRefService

namespace OpenAlexService

/-- `getWork(doi)` of `openalex.service.ts`: same three-way mapping. -/
def getWork (o : FetchOutcome OpenAlexWork) : OpenAlexLookupResult :=
  match o with
  | FetchOutcome.exn => OpenAlexLookupResult.error "Unknown error"
  | FetchOutcome.resp status body =>
    if status == 404 then OpenAlexLookupResult.not_found
    else if !respOk status then
      OpenAlexLookupResult.error ("OpenAlex API error: " ++ toString status)
    else
      match body with
      | some work => OpenAlexLookupResult.found work
      | Option.none => OpenAlexLookupResult.error "Unknown error"

end OpenAlexService

namespace LegacyCrossRefService

/-- The legacy `CrossRefService.getWork` (null-returning variant): 404 →
`null`; every other failure (non-ok status throws, malformed body throws,
network exception) is caught and also becomes `null`. -/
def getWork (o : FetchOutcome CrossRefWork) : Option CrossRefWork :=
  match o with
  | FetchOutcome.exn => Option.none
  | FetchOutcome.resp status body =>
    if status == 404 then Option.none
    else if !respOk status then Option.none
    else
      match body with
      | some work => some work
      | Option.none => Option.none

end LegacyCrossRefService

/-- A source positively reports the resource absent: HTTP 404. -/
def FetchOutcome.isAbsent {α : Type} (o : FetchOutcome α) : Prop :=
  ∃ body, o = FetchOutcome.resp 404 body

/-- Any other failure: thrown exception, non-404 non-2xx status, or a 2xx
response with a malformed body. -/
def FetchOutcome.isFailure {α : Type} (o : FetchOutcome α) : Prop :=
  o = FetchOutcome.exn ∨
  (∃ status body, o = FetchOutcome.resp status body ∧ status ≠ 404 ∧
    respOk status = false) ∨
  (∃ status, o = FetchOutcome.resp status Option.none ∧ respOk status = true)

/-! ## Extension shared types and API client (`api-client.ts`) -/

/-- `RetractionDetails` (shared shape of backend and extension). -/
structure RetractionDetails where
  recordId : Int
  title : Option String
  journal : Option String
  publisher : Option String
  authors : List String
  retractionDate : Option String
  retractionNature : Option String
  reason : List String
  retractionNoticeUrl : Option String
  originalPaperDate : Option String
deriving DecidableEq

/-- `FullCheckResult` of the extension (`validation` is the
`ValidationResult`, which has the same shape as the backend
`CitationValidationResponse`). -/
structure FullCheckResult where
  status : CitationStatus
  isRetracted : Bool
  retractionDetails : Option RetractionDetails
  validation : Option CitationValidationResponse
deriving DecidableEq

/-- `ExtractedCitation` (DOM references dropped). -/
structure ExtractedCitation where
  id : String
  doi : Option String
  pmid : Option String
  url : Option String
  title : Option String
  authors : List String
  year : Option Int
  journal : Option String
deriving DecidableEq

namespace ApiClient

/-- The extension's own `stringSimilarity(a, b)`: 1 on (case-insensitive)
equality, 0 when either side is empty, otherwise word-overlap ratio
|A ∩ B| / |A ∪ B| over the sets of lowercased words longer than 2
characters. -/
def stringSimilarity (a b : String) : ℚ :=
  if a == b then 1
  else if a.isEmpty || b.isEmpty then 0
  else
    let aLower := a.toLower
    let bLower := b.toLower
    if aLower == bLower then 1
    else
      let aWords := ((aLower.split Char.isWhitespace).filter
        (fun w => w.length > 2)).dedup
      let bWords := ((bLower.split Char.isWhitespace).filter
        (fun w => w.length > 2)).dedup
      let intersection := aWords.filter (fun w => bWords.contains w)
      let union := (aWords ++ bWords).dedup
      if union.length > 0 then
        (intersection.length : ℚ) / (union.length : ℚ)
      else 0

/-- The extension's `compareMetadata`: title, year and first author only
(no journal comparison); titles are compared without pre-lowercasing
(`stringSimilarity` lowercases internally). -/
def compareMetadata (provided : CitationInput) (actual : MatchedData) :
    List Discrepancy :=
  let titleDiscs :=
    match provided.title with
    | some t =>
      if !t.isEmpty && !actual.title.isEmpty then
        let titleSimilarity := stringSimilarity t actual.title
        if titleSimilarity < (9 : ℚ)/10 then
          [⟨FieldName.title, t, actual.title,
            if titleSimilarity < (1 : ℚ)/2 then Severity.critical else Severity.major⟩]
        else []
      else []
    | Option.none => []
  let yearDiscs :=
    match provided.year with
    | some y =>
      if y != 0 && actual.year != 0 && y != actual.year then
        [⟨FieldName.year, toString y, toString actual.year,
          if (y - actual.year).natAbs > 2 then Severity.major else Severity.minor⟩]
      else []
    | Option.none => []
  let authorDiscs :=
    match provided.authors, actual.authors with
    | providedFirst :: _, actualFirst :: _ =>
      let authorSimilarity :=
        stringSimilarity providedFirst.toLower actualFirst.name.toLower
      if authorSimilarity < (7 : ℚ)/10 then
        [⟨FieldName.authors, providedFirst, actualFirst.name, Severity.major⟩]
      else []
    | _, _ => []
  titleDiscs ++ yearDiscs ++ authorDiscs

/-- Three-way outcome of the extension's `checkCrossRef` /
`checkOpenAlex`, with the raw work payload abstract. -/
inductive ExtLookup (α : Type)
  | found (work : α)
  | not_found
  | error
deriving DecidableEq

/-- Outcome of the extension's `checkUrl`: found (with the extracted page
title, possibly absent), positively not found, or error. -/
inductive UrlCheckResult
  | found (title : Option String)
  | not_found
  | error
deriving DecidableEq

/-- The `\x7b status: 'skip', validation: null \x7d` result. -/
def skipNullResult : FullCheckResult :=
  ⟨CitationStatus.skip, false, Option.none, Option.none⟩

/-- `checkByDoi(citation)`.  The two lookups are passed in as their
outcomes; the raw-payload transforms (`crossrefToMatchedData`,
`openalexToMatchedData` of `api-client.ts`) and the pure metadata-based
retraction detector (`checkRetractionStatus`) are abstracted as the
parameters `toMDcr`, `toMDoa` and `retrCheck` over the raw payload types
`CW` / `OW`. -/
def checkByDoi {CW OW : Type} (toMDcr : CW → MatchedData)
    (toMDoa : OW → MatchedData) (retrCheck : CW → Option RetractionDetails)
    (citation : CitationInput) (crossrefResult : ExtLookup CW)
    (openalexResult : ExtLookup OW) : FullCheckResult :=
  if !truthyStr citation.doi then skipNullResult
  else
    let afterFound : MatchedData → Source → Option CW → FullCheckResult :=
      fun matchedData source rawCrossrefWork =>
        let discrepancies := compareMetadata citation matchedData
        let retractionDetails :=
          match rawCrossrefWork with
          | some raw => retrCheck raw
          | Option.none => Option.none
        match retractionDetails with
        | some details =>
          ⟨CitationStatus.retracted, true, some details,
            some ⟨true, 1, source, some matchedData, discrepancies,
              CitationStatus.retracted⟩⟩
        | Option.none =>
          ⟨CitationStatus.verified, false, Option.none,
            some ⟨true, 1, source, some matchedData, discrepancies,
              CitationStatus.verified⟩⟩
    let fakeLikelyResult : FullCheckResult :=
      ⟨CitationStatus.fakeLikely, false, Option.none,
        some ⟨false, 0, Source.none, Option.none,
          [⟨FieldName.doi, citation.doi.getD "", "NOT FOUND", Severity.critical⟩],
          CitationStatus.fakeLikely⟩⟩
    match crossrefResult with
    | ExtLookup.found work => afterFound (toMDcr work) Source.crossref (some work)
    | ExtLookup.not_found =>
      match openalexResult with
      | ExtLookup.found work => afterFound (toMDoa work) Source.openalex Option.none
      | ExtLookup.not_found => fakeLikelyResult
      | ExtLookup.error => skipNullResult
    | ExtLookup.error =>
      match openalexResult with
      | ExtLookup.found work => afterFound (toMDoa work) Source.openalex Option.none
      | ExtLookup.not_found => fakeLikelyResult
      | ExtLookup.error => skipNullResult

/-- `checkByUrl(citation)`, with the URL fetch outcome passed in. -/
def checkByUrl (citation : CitationInput) (urlResult : UrlCheckResult) :
    FullCheckResult :=
  if !truthyStr citation.url then skipNullResult
  else
    match urlResult with
    | UrlCheckResult.not_found =>
      ⟨CitationStatus.fakeLikely, false, Option.none,
        some ⟨false, 0, Source.none, Option.none,
          [⟨FieldName.url, citation.url.getD "", "PAGE NOT FOUND", Severity.critical⟩],
          CitationStatus.fakeLikely⟩⟩
    | UrlCheckResult.error => skipNullResult
    | UrlCheckResult.found pageTitle =>
      let verifiedResult : FullCheckResult :=
        ⟨CitationStatus.verified, false, Option.none,
          some ⟨true, 1, Source.none,
            (match pageTitle with
             | some pt =>
               if !pt.isEmpty then
                 some ⟨"", pt, [], 0, "", Option.none, Option.none,
                   Option.none, Option.none, Option.none⟩
               else Option.none
             | Option.none => Option.none),
            [], CitationStatus.verified⟩⟩
      match citation.title, pageTitle with
      | some t, some pt =>
        if !t.isEmpty && !pt.isEmpty then
          let similarity := stringSimilarity t pt
          if similarity < (3 : ℚ)/10 then
            ⟨CitationStatus.fakeLikely, false, Option.none,
              some ⟨true, similarity, Source.none, Option.none,
                [⟨FieldName.title, t, pt, Severity.critical⟩],
                CitationStatus.fakeLikely⟩⟩
          else if similarity < (7 : ℚ)/10 then
            ⟨CitationStatus.fakeProbably, false, Option.none,
              some ⟨true, similarity, Source.none, Option.none,
                [⟨FieldName.title, t, pt, Severity.major⟩],
                CitationStatus.fakeProbably⟩⟩
          else verifiedResult
        else verifiedResult
      | _, _ => verifiedResult

/-- `checkCitation(citation)`: DOI path, else URL path, else skip. -/
def checkCitation {CW OW : Type} (toMDcr : CW → MatchedData)
    (toMDoa : OW → MatchedData) (retrCheck : CW → Option RetractionDetails)
    (citation : CitationInput) (crossrefResult : ExtLookup CW)
    (openalexResult : ExtLookup OW) (urlResult : UrlCheckResult) :
    FullCheckResult :=
  if truthyStr citation.doi then
    checkByDoi toMDcr toMDoa retrCheck citation crossrefResult openalexResult
  else if truthyStr citation.url then
    checkByUrl citation urlResult
  else skipNullResult

end ApiClient

/-- JavaScript `Map.prototype.set`: update in place when the key exists,
append otherwise. -/
def mapSet {β : Type} (m : List (String × β)) (k : String) (v : β) :
    List (String × β) :=
  if m.any (fun p => p.1 == k) then
    m.map (fun p => if p.1 == k then (k, v) else p)
  else m ++ [(k, v)]

/-- The keys of a JavaScript-`Map` model, in insertion order. -/
def mapKeys {β : Type} (m : List (String × β)) : List String :=
  m.map (fun p => p.1)

/-- The fixed-size windows `citations.slice(i, i + BATCH_SIZE)` of the
extension's `checkBatch` loop (`BATCH_SIZE = 5`). -/
def toBatches {α : Type} : List α → List (List α)
  | [] => []
  | x :: xs => ((x :: xs).take 5) :: toBatches ((x :: xs).drop 5)
termination_by l => l.length
decreasing_by
  simp only [List.length_drop, List.length_cons]
  omega

namespace ApiClient

/-- `checkBatch(citations)`: process in windows of 5, collecting the
per-citation results into a `Map` keyed by `citation.id`.  The
per-citation call (`this.checkCitation` with its field projection) is the
parameter `check`. -/
def checkBatch (check : ExtractedCitation → FullCheckResult)
    (citations : List ExtractedCitation) : List (String × FullCheckResult) :=
  (toBatches citations).foldl
    (fun results batch =>
      let batchResults := batch.map (fun c => (c.id, check c))
      batchResults.foldl (fun m p => mapSet m p.1 p.2) results)
    []

end ApiClient

/-! ## Backend HTTP routes (`citation.routes.ts`) -/

namespace CitationRoutes

/-- One entry of the `/check/batch` response array. -/
structure BatchItemResult where
  inputDoi : Option String
  inputTitle : Option String
  status : CitationStatus
  isRetracted : Bool
  retractionDetails : Option RetractionDetails
  validation : Option CitationValidationResponse
deriving DecidableEq

/-- `POST /check/citation`: reject with 400 when neither `doi` nor
`title` is (truthily) present, otherwise validate.  The whole
`citationValidatorService.validate` call under the current network
conditions is the parameter `validateFn`. -/
def checkCitationRoute
    (validateFn : CitationInput → CitationValidationResponse)
    (citation : CitationInput) : Except Nat CitationValidationResponse :=
  if !truthyStr citation.doi && !truthyStr citation.title then
    Except.error 400
  else
    Except.ok (validateFn citation)

/-- The per-item body of the `/check/batch` `items.map(...)`:
retraction check first, then validation (when a `doi` or `title` is
present), else a `'unknown'` placeholder.  `retractionCheck` models
`retractionService.check(citation.doi, citation.pmid)` (its result
`isRetracted` is `isSome`). -/
def batchItemStep
    (retractionCheck : CitationInput → Option RetractionDetails)
    (validateFn : CitationInput → CitationValidationResponse)
    (citation : CitationInput) : BatchItemResult :=
  match retractionCheck citation with
  | some details =>
    ⟨citation.doi, citation.title, CitationStatus.retracted, true,
      some details, Option.none⟩
  | Option.none =>
    if truthyStr citation.doi || truthyStr citation.title then
      let validationResult := validateFn citation
      ⟨citation.doi, citation.title, validationResult.status, false,
        Option.none, some validationResult⟩
    else
      ⟨citation.doi, citation.title, CitationStatus.unknown, false,
        Option.none, Option.none⟩

/-- `POST /check/batch`: reject empty or over-50 item lists with 400,
otherwise map `batchItemStep` over the items (a `Promise.all` over
`items.map`, hence index-aligned). -/
def checkBatchRoute
    (retractionCheck : CitationInput → Option RetractionDetails)
    (validateFn : CitationInput → CitationValidationResponse)
    (items : List CitationInput) : Except Nat (List BatchItemResult) :=
  if items.isEmpty then Except.error 400
  else if items.length > 50 then Except.error 400
  else Except.ok (items.map (batchItemStep retractionCheck validateFn))

end CitationRoutes

/-! ## Spec-side comparison definitions -/

/-- The fuzzy-match status classifier exactly as the specification words
it (§4.7): `c ≥ 0.8` and no critical/major → verified; else any critical
title discrepancy → fake-likely; else **a major discrepancy on year or
author exists** → fake-probably; else `c ≥ 0.7` → verified; else skip.
This follows the spec's words, for comparison with
`CitationValidatorService.getMetadataBasedStatus`. -/
def specFuzzyStatus (confidence : ℚ) (discrepancies : List Discrepancy) :
    CitationStatus :=
  if decide (confidence ≥ (4 : ℚ)/5) &&
      !(discrepancies.any (fun d => d.severity == Severity.critical)) &&
      !(discrepancies.any (fun d => d.severity == Severity.major)) then
    CitationStatus.verified
  else if discrepancies.any (fun d =>
      d.field == FieldName.title && d.severity == Severity.critical) then
    CitationStatus.fakeLikely
  else if discrepancies.any (fun d =>
      (d.field == FieldName.year || d.field == FieldName.authors) &&
      d.severity == Severity.major) then
    CitationStatus.fakeProbably
  else if decide (confidence ≥ (7 : ℚ)/10) then
    CitationStatus.verified
  else
    CitationStatus.skip

/-- The fuzzy-match classifier as the code actually decides its third
step: fake-probably requires **some** major discrepancy (on any field)
together with a year or author discrepancy **of any severity**.  This is
the amended form of the spec's classifier. -/
def amendedFuzzyStatus (confidence : ℚ) (discrepancies : List Discrepancy) :
    CitationStatus :=
  if decide (confidence ≥ (4 : ℚ)/5) &&
      !(discrepancies.any (fun d => d.severity == Severity.critical)) &&
      !(discrepancies.any (fun d => d.severity == Severity.major)) then
    CitationStatus.verified
  else if discrepancies.any (fun d =>
      d.field == FieldName.title && d.severity == Severity.critical) then
    CitationStatus.fakeLikely
  else if discrepancies.any (fun d => d.severity == Severity.major) &&
      (discrepancies.any (fun d => d.field == FieldName.year) ||
       discrepancies.any (fun d => d.field == FieldName.authors)) then
    CitationStatus.fakeProbably
  else if decide (confidence ≥ (7 : ℚ)/10) then
    CitationStatus.verified
  else
    CitationStatus.skip

/-- Count of discrepancies of a given severity. -/
def severityCount (s : Severity) (discrepancies : List Discrepancy) : Nat :=
  (discrepancies.filter (fun d => d.severity == s)).length

/-! ## Helper lemmas -/

theorem find?_isSome_eq_any {α : Type} (p : α → Bool) (l : List α) :
    (l.find? p).isSome = l.any p := by
  induction l with
  | nil => rfl
  | cons x xs ih =>
    by_cases h : p x
    · simp [List.find?_cons, h]
    · simp only [List.find?_cons, Bool.not_eq_true] at h ⊢
      rw [h]
      simp [ih, h]

theorem char_toNat_ofNat_valid (n : Nat) (h : n.isValidChar) :
    (Char.ofNat n).toNat = n := by
  simp [Char.ofNat, dif_pos h, Char.ofNatAux, Char.toNat, UInt32.toNat,
    BitVec.toNat_ofNatLt, UInt32.ofNatCore]

theorem char_toLower_toLower (c : Char) : c.toLower.toLower = c.toLower := by
  unfold Char.toLower
  by_cases h : c.toNat ≥ 65 ∧ c.toNat ≤ 90
  · rw [if_pos h]
    have hv : (c.toNat + 32).isValidChar := by
      left
      omega
    have ht : (Char.ofNat (c.toNat + 32)).toNat = c.toNat + 32 :=
      char_toNat_ofNat_valid _ hv
    rw [if_neg]
    omega
  · rw [if_neg h, if_neg h]

theorem mem_dropTrailing {p : Char → Bool} {l : List Char} {c : Char}
    (h : c ∈ dropTrailing p l) : c ∈ l := by
  unfold dropTrailing at h
  rw [List.mem_reverse] at h
  have := (List.dropWhile_sublist p (l := l.reverse)).mem h
  rwa [List.mem_reverse] at this

theorem mem_trimChars {l : List Char} {c : Char} (h : c ∈ trimChars l) :
    c ∈ l := by
  unfold trimChars at h
  exact (List.dropWhile_sublist _).mem (mem_dropTrailing h)

theorem mem_dropDoiOrg {l : List Char} {c : Char} (h : c ∈ dropDoiOrg l) :
    c ∈ l := by
  unfold dropDoiOrg at h
  split at h
  · exact (List.drop_sublist 16 l).mem h
  · split at h
    · exact (List.drop_sublist 15 l).mem h
    · exact h

/-- Every character of a lowercased list is fixed by `Char.toLower`. -/
theorem toLower_fixed_of_mem_lowerChars {l : List Char} {c : Char}
    (h : c ∈ lowerChars l) : c.toLower = c := by
  unfold lowerChars at h
  obtain ⟨c', _, rfl⟩ := List.mem_map.mp h
  exact char_toLower_toLower c'

theorem lowerChars_fixed (l₀ : List Char) {l : List Char}
    (hsub : ∀ c ∈ l, c ∈ lowerChars l₀) : lowerChars l = l := by
  unfold lowerChars
  rw [List.map_congr_left (fun c hc => toLower_fixed_of_mem_lowerChars (hsub c hc))]
  exact List.map_id l

theorem dropWhile_dropWhile {α : Type} (p : α → Bool) (l : List α) :
    (l.dropWhile p).dropWhile p = l.dropWhile p := by
  induction l with
  | nil => rfl
  | cons x xs ih =>
    by_cases h : p x
    · simp [List.dropWhile_cons, h, ih]
    · simp [List.dropWhile_cons, h]

theorem dropTrailing_dropTrailing (p : Char → Bool) (l : List Char) :
    dropTrailing p (dropTrailing p l) = dropTrailing p l := by
  unfold dropTrailing
  rw [List.reverse_reverse, dropWhile_dropWhile]

/-- The API-side normalizer's output is already fully lowercased. -/
theorem crossref_normalizeDoi_lower_fixed (s : String) :
    lowerChars (CrossRefService.normalizeDoi s).data =
      (CrossRefService.normalizeDoi s).data := by
  apply lowerChars_fixed s.data
  intro c hc
  exact mem_trimChars (mem_dropDoiOrg hc)

/-- The extractor normalizer's output is already fully lowercased. -/
theorem extractor_normalizeDoi_lower_fixed (s : String) :
    lowerChars (DoiExtractor.normalizeDoi s).data =
      (DoiExtractor.normalizeDoi s).data := by
  apply lowerChars_fixed s.data
  intro c hc
  exact mem_trimChars (mem_dropTrailing hc)

/-! ## Claim theorems -/

/-- C4: the claim expects `"10.1000/182"`, but no single `normalizeDoi`
in the repository produces it on `"HTTPS://DOI.ORG/10.1000/182."`: the
API-side variant does not strip trailing punctuation, the extractor
variant does not strip the protocol prefix. -/
theorem C4_normalizeDoi_counterexample :
    CrossRefService.normalizeDoi "HTTPS://DOI.ORG/10.1000/182." ≠ "10.1000/182" ∧
    DoiExtractor.normalizeDoi "HTTPS://DOI.ORG/10.1000/182." ≠ "10.1000/182" := by
  with_unfolding_all decide

/-- C4 (amended): on `"HTTPS://DOI.ORG/10.1000/182."` the API-side
`normalizeDoi` yields `"10.1000/182."` (case and protocol prefix
stripped, trailing period kept), the free-text extractor's `normalizeDoi`
yields `"https://doi.org/10.1000/182"` (case and trailing period
stripped, protocol prefix kept), and only their composition
(extraction-side normalization followed by API-side normalization)
yields `"10.1000/182"`. -/
theorem C4_normalizeDoi_amended :
    CrossRefService.normalizeDoi "HTTPS://DOI.ORG/10.1000/182." = "10.1000/182." ∧
    DoiExtractor.normalizeDoi "HTTPS://DOI.ORG/10.1000/182." =
      "https://doi.org/10.1000/182" ∧
    CrossRefService.normalizeDoi
      (DoiExtractor.normalizeDoi "HTTPS://DOI.ORG/10.1000/182.") = "10.1000/182" := by
  with_unfolding_all decide

/-- C5: `normalizeDoi` is not idempotent on all strings.  The API-side
variant re-exposes (and then strips on the second pass) material after
the protocol prefix: on `"https://doi.org/ 10.1/a"` one pass gives
`" 10.1/a"`, two passes give `"10.1/a"`.  The extractor variant's
punctuation stripping can expose trailing whitespace: on `"ab ."` one
pass gives `"ab "`, two passes give `"ab"`. -/
theorem C5_normalizeDoi_counterexample :
    CrossRefService.normalizeDoi
        (CrossRefService.normalizeDoi "https://doi.org/ 10.1/a") ≠
      CrossRefService.normalizeDoi "https://doi.org/ 10.1/a" ∧
    DoiExtractor.normalizeDoi (DoiExtractor.normalizeDoi "ab .") ≠
      DoiExtractor.normalizeDoi "ab ." := by
  with_unfolding_all decide

/-- C5 (amended): `normalizeDoi` is idempotent on every input whose
once-normalized form is stable: for the API-side variant, whenever one
pass leaves a string unchanged by trimming and carrying no leading
`doi.org` prefix; for the extractor variant, whenever one pass leaves a
string unchanged by trimming.  (Lowercasing is always stable after one
pass; the counterexamples show the two stability conditions cannot be
dropped.) -/
theorem C5_normalizeDoi_idem_amended :
    (∀ s : String,
      trimChars (CrossRefService.normalizeDoi s).data =
        (CrossRefService.normalizeDoi s).data →
      dropDoiOrg (CrossRefService.normalizeDoi s).data =
        (CrossRefService.normalizeDoi s).data →
      CrossRefService.normalizeDoi (CrossRefService.normalizeDoi s) =
        CrossRefService.normalizeDoi s) ∧
    (∀ s : String,
      trimChars (DoiExtractor.normalizeDoi s).data =
        (DoiExtractor.normalizeDoi s).data →
      DoiExtractor.normalizeDoi (DoiExtractor.normalizeDoi s) =
        DoiExtractor.normalizeDoi s) := by
  constructor
  · intro s htrim hdrop
    show String.mk (dropDoiOrg (trimChars (lowerChars
      (CrossRefService.normalizeDoi s).data))) = CrossRefService.normalizeDoi s
    rw [crossref_normalizeDoi_lower_fixed, htrim, hdrop]
  · intro s htrim
    show String.mk (dropTrailing isTrailingPunct (trimChars (lowerChars
      (DoiExtractor.normalizeDoi s).data))) = DoiExtractor.normalizeDoi s
    rw [extractor_normalizeDoi_lower_fixed, htrim]
    show String.mk (dropTrailing isTrailingPunct (dropTrailing isTrailingPunct
      (trimChars (lowerChars s.data)))) = DoiExtractor.normalizeDoi s
    rw [dropTrailing_dropTrailing]
    rfl

/-- Folding the per-discrepancy penalty subtraction equals subtracting
the weighted severity counts. -/
theorem foldl_penalty_eq (d : List Discrepancy) (c : ℚ) :
    d.foldl (fun acc x => acc - CitationValidatorService.severityPenalty x.severity) c =
      c - ((1 : ℚ)/2 * severityCount Severity.critical d +
           (1 : ℚ)/5 * severityCount Severity.major d +
           (1 : ℚ)/20 * severityCount Severity.minor d) := by
  induction d generalizing c with
  | nil => simp [severityCount]
  | cons x xs ih =>
    simp only [List.foldl_cons, ih]
    cases hx : x.severity <;>
      simp [severityCount, List.filter_cons, hx,
        CitationValidatorService.severityPenalty, Nat.cast_add, Nat.cast_one] <;>
      ring

/-- C6: `calculateConfidence` returns exactly
`max(0, min(1, 1 − 0.5·#critical − 0.2·#major − 0.05·#minor))`, and the
result always lies in `[0, 1]`. -/
theorem C6_confidence_formula (d : List Discrepancy) :
    CitationValidatorService.calculateConfidence d =
      max 0 (min 1 ((1 : ℚ) -
        (1 : ℚ)/2 * severityCount Severity.critical d -
        (1 : ℚ)/5 * severityCount Severity.major d -
        (1 : ℚ)/20 * severityCount Severity.minor d)) ∧
    0 ≤ CitationValidatorService.calculateConfidence d ∧
    CitationValidatorService.calculateConfidence d ≤ 1 := by
  have hdef : CitationValidatorService.calculateConfidence d =
      max 0 (min 1 (d.foldl
        (fun acc x => acc - CitationValidatorService.severityPenalty x.severity) 1)) :=
    rfl
  refine ⟨?_, ?_, ?_⟩
  · rw [hdef, foldl_penalty_eq]
    ring_nf
  · rw [hdef]
    exact le_max_left 0 _
  · rw [hdef]
    exact max_le (by norm_num) (min_le_left 1 _)

/-- C7: the spec's fuzzy-match classifier differs from the code on
`c = 3/4` with a major title discrepancy and a minor year discrepancy:
the code returns fake-probably (its third step fires on any major
discrepancy combined with any year/author discrepancy), the claim's
ordering returns verified. -/
theorem C7_classifier_counterexample :
    CitationValidatorService.getMetadataBasedStatus (mkRat 3 4)
        [⟨FieldName.title, "a", "b", Severity.major⟩,
         ⟨FieldName.year, "2020", "2021", Severity.minor⟩] =
      CitationStatus.fakeProbably ∧
    specFuzzyStatus (mkRat 3 4)
        [⟨FieldName.title, "a", "b", Severity.major⟩,
         ⟨FieldName.year, "2020", "2021", Severity.minor⟩] =
      CitationStatus.verified ∧
    CitationStatus.fakeProbably ≠ CitationStatus.verified := by
  with_unfolding_all decide

/-- C7 (amended): the classifier decides in the spec's order except in
the third step, which fires when some major discrepancy exists (on any
field) together with a year or author discrepancy of any severity. -/
theorem C7_classifier_amended (confidence : ℚ) (d : List Discrepancy) :
    CitationValidatorService.getMetadataBasedStatus confidence d =
      amendedFuzzyStatus confidence d := by
  unfold CitationValidatorService.getMetadataBasedStatus amendedFuzzyStatus
  rw [find?_isSome_eq_any, find?_isSome_eq_any, find?_isSome_eq_any]

/-- C2: on the DOI path (backend `validateByDoi` and extension
`checkByDoi`) a fake verdict (`fake-likely` / `fake-probably`) is
returned only when at least one source positively returned `not_found`,
and two errors always yield `skip`. -/
theorem C2_no_fake_from_errors :
    (∀ (sim : String → String → ℚ) (c : CitationInput)
        (cr : CrossRefLookupResult) (oa : OpenAlexLookupResult),
      ((CitationValidatorService.validateByDoi sim c cr oa).status =
          CitationStatus.fakeLikely ∨
       (CitationValidatorService.validateByDoi sim c cr oa).status =
          CitationStatus.fakeProbably) →
      cr = CrossRefLookupResult.not_found ∨
        oa = OpenAlexLookupResult.not_found) ∧
    (∀ (sim : String → String → ℚ) (c : CitationInput) (m₁ m₂ : String),
      (CitationValidatorService.validateByDoi sim c
        (CrossRefLookupResult.error m₁)
        (OpenAlexLookupResult.error m₂)).status = CitationStatus.skip) ∧
    (∀ {CW OW : Type} (toMDcr : CW → MatchedData) (toMDoa : OW → MatchedData)
        (retr : CW → Option RetractionDetails) (c : CitationInput)
        (cr : ApiClient.ExtLookup CW) (oa : ApiClient.ExtLookup OW),
      ((ApiClient.checkByDoi toMDcr toMDoa retr c cr oa).status =
          CitationStatus.fakeLikely ∨
       (ApiClient.checkByDoi toMDcr toMDoa retr c cr oa).status =
          CitationStatus.fakeProbably) →
      cr = ApiClient.ExtLookup.not_found ∨
        oa = ApiClient.ExtLookup.not_found) ∧
    (∀ {CW OW : Type} (toMDcr : CW → MatchedData) (toMDoa : OW → MatchedData)
        (retr : CW → Option RetractionDetails) (c : CitationInput),
      (ApiClient.checkByDoi toMDcr toMDoa retr c
        ApiClient.ExtLookup.error ApiClient.ExtLookup.error).status =
        CitationStatus.skip) := by
  refine ⟨?_, ?_, ?_, ?_⟩
  · intro sim c cr oa h
    cases cr with
    | found w => cases oa <;> simp [CitationValidatorService.validateByDoi] at h
    | not_found => exact Or.inl rfl
    | error m =>
      cases oa with
      | found w => simp [CitationValidatorService.validateByDoi] at h
      | not_found => exact Or.inr rfl
      | error m' => simp [CitationValidatorService.validateByDoi] at h
  · intro sim c m₁ m₂
    rfl
  · intro CW OW toMDcr toMDoa retr c cr oa h
    by_cases hd : truthyStr c.doi
    · cases cr with
      | found w =>
        cases hr : retr w <;>
          simp [ApiClient.checkByDoi, hd, hr, ApiClient.skipNullResult] at h
      | not_found => exact Or.inl rfl
      | error =>
        cases oa with
        | found w =>
          simp [ApiClient.checkByDoi, hd, ApiClient.skipNullResult] at h
        | not_found => exact Or.inr rfl
        | error => simp [ApiClient.checkByDoi, hd, ApiClient.skipNullResult] at h
    · simp [ApiClient.checkByDoi, hd, ApiClient.skipNullResult] at h
  · intro CW OW toMDcr toMDoa retr c
    by_cases hd : truthyStr c.doi <;>
      simp [ApiClient.checkByDoi, hd, ApiClient.skipNullResult]

/-- C2 (witness): the fake-only-with-not-found property applied at the
concrete input where both sources return `not_found`. -/
theorem C2_no_fake_from_errors_witness :
    (CrossRefLookupResult.not_found = CrossRefLookupResult.not_found ∨
      OpenAlexLookupResult.not_found = OpenAlexLookupResult.not_found) ∧
    ((ApiClient.ExtLookup.not_found : ApiClient.ExtLookup MatchedData) =
        ApiClient.ExtLookup.not_found ∨
      (ApiClient.ExtLookup.not_found : ApiClient.ExtLookup MatchedData) =
        ApiClient.ExtLookup.not_found) :=
  ⟨C2_no_fake_from_errors.1 (fun _ _ => 1)
      ⟨some "10.1/x", Option.none, Option.none, Option.none, [], Option.none, Option.none⟩
      CrossRefLookupResult.not_found OpenAlexLookupResult.not_found
      (Or.inl (by with_unfolding_all decide)),
    C2_no_fake_from_errors.2.2.1 (fun w => w) (fun w => w) (fun _ => Option.none)
      ⟨some "10.1/x", Option.none, Option.none, Option.none, [], Option.none, Option.none⟩
      ApiClient.ExtLookup.not_found ApiClient.ExtLookup.not_found
      (Or.inl (by with_unfolding_all decide))⟩

/-- The DOI branch satisfies the exists/source/matchedData invariant. -/
theorem validateByDoi_invariant (sim : String → String → ℚ)
    (c : CitationInput) (cr : CrossRefLookupResult)
    (oa : OpenAlexLookupResult) :
    ((CitationValidatorService.validateByDoi sim c cr oa).exists_ = false →
      (CitationValidatorService.validateByDoi sim c cr oa).source = Source.none ∧
      (CitationValidatorService.validateByDoi sim c cr oa).matchedData = Option.none) ∧
    ((CitationValidatorService.validateByDoi sim c cr oa).exists_ = true →
      ((CitationValidatorService.validateByDoi sim c cr oa).source = Source.crossref ∨
       (CitationValidatorService.validateByDoi sim c cr oa).source = Source.openalex) ∧
      (CitationValidatorService.validateByDoi sim c cr oa).matchedData.isSome = true) := by
  cases cr <;> cases oa <;> simp [CitationValidatorService.validateByDoi]

/-- The metadata branch satisfies the exists/source/matchedData
invariant. -/
theorem validateByMetadata_invariant (sim : String → String → ℚ)
    (c : CitationInput) (oaS : List OpenAlexWork) (crS : List CrossRefWork) :
    ((CitationValidatorService.validateByMetadata sim c oaS crS).exists_ = false →
      (CitationValidatorService.validateByMetadata sim c oaS crS).source = Source.none ∧
      (CitationValidatorService.validateByMetadata sim c oaS crS).matchedData = Option.none) ∧
    ((CitationValidatorService.validateByMetadata sim c oaS crS).exists_ = true →
      ((CitationValidatorService.validateByMetadata sim c oaS crS).source = Source.crossref ∨
       (CitationValidatorService.validateByMetadata sim c oaS crS).source = Source.openalex) ∧
      (CitationValidatorService.validateByMetadata sim c oaS crS).matchedData.isSome = true) := by
  unfold CitationValidatorService.validateByMetadata
  split
  · simp
  · split
    · split
      · split <;> simp
      · simp
    · split
      · split <;> simp
      · simp

/-- C9: every result of `validate` couples `exists` with `source` and
`matchedData`: a negative result carries `source = none` and no matched
data; a positive result names crossref or openalex and carries matched
data. -/
theorem C9_result_invariant (sim : String → String → ℚ)
    (c : CitationInput) (cr : CrossRefLookupResult)
    (oa : OpenAlexLookupResult) (oaS : List OpenAlexWork)
    (crS : List CrossRefWork) :
    ((CitationValidatorService.validate sim c cr oa oaS crS).exists_ = false →
      (CitationValidatorService.validate sim c cr oa oaS crS).source = Source.none ∧
      (CitationValidatorService.validate sim c cr oa oaS crS).matchedData = Option.none) ∧
    ((CitationValidatorService.validate sim c cr oa oaS crS).exists_ = true →
      ((CitationValidatorService.validate sim c cr oa oaS crS).source = Source.crossref ∨
       (CitationValidatorService.validate sim c cr oa oaS crS).source = Source.openalex) ∧
      (CitationValidatorService.validate sim c cr oa oaS crS).matchedData.isSome = true) := by
  unfold CitationValidatorService.validate
  by_cases hd : truthyStr c.doi
  · simpa [hd] using validateByDoi_invariant sim c cr oa
  · simpa [hd] using validateByMetadata_invariant sim c oaS crS

/-- C9 (witness): the invariant applied to the concrete verification in
which both sources return `not_found` (a negative result). -/
theorem C9_result_invariant_witness :
    (CitationValidatorService.validate (fun _ _ => 1)
        ⟨some "10.1/x", Option.none, Option.none, Option.none, [], Option.none, Option.none⟩
        CrossRefLookupResult.not_found OpenAlexLookupResult.not_found [] []).source =
      Source.none ∧
    (CitationValidatorService.validate (fun _ _ => 1)
        ⟨some "10.1/x", Option.none, Option.none, Option.none, [], Option.none, Option.none⟩
        CrossRefLookupResult.not_found OpenAlexLookupResult.not_found [] []).matchedData =
      Option.none :=
  (C9_result_invariant (fun _ _ => 1)
      ⟨some "10.1/x", Option.none, Option.none, Option.none, [], Option.none, Option.none⟩
      CrossRefLookupResult.not_found OpenAlexLookupResult.not_found [] []).1
    (by with_unfolding_all decide)

/-- C10: a citation with neither a (truthy) DOI nor a (truthy) title
validates to the skip result regardless of any source outcome (no
external source is consulted), and the `/check/citation` route rejects
it with HTTP 400 before validation. -/
theorem C10_no_identifier_skip (sim : String → String → ℚ)
    (cr : CrossRefLookupResult) (oa : OpenAlexLookupResult)
    (oaS : List OpenAlexWork) (crS : List CrossRefWork)
    (validateFn : CitationInput → CitationValidationResponse)
    (c : CitationInput) (hd : truthyStr c.doi = false)
    (ht : truthyStr c.title = false) :
    CitationValidatorService.validate sim c cr oa oaS crS =
      ⟨false, 0, Source.none, Option.none, [], CitationStatus.skip⟩ ∧
    CitationRoutes.checkCitationRoute validateFn c = Except.error 400 := by
  constructor
  · unfold CitationValidatorService.validate
    rw [hd]
    unfold CitationValidatorService.validateByMetadata
    rw [ht]
    rfl
  · unfold CitationRoutes.checkCitationRoute
    rw [hd, ht]
    rfl

/-- C10 (witness): the skip behaviour at the concrete empty citation. -/
theorem C10_no_identifier_skip_witness :
    CitationValidatorService.validate (fun _ _ => 1)
        ⟨Option.none, Option.none, Option.none, Option.none, [], Option.none, Option.none⟩
        CrossRefLookupResult.not_found OpenAlexLookupResult.not_found [] [] =
      ⟨false, 0, Source.none, Option.none, [], CitationStatus.skip⟩ ∧
    CitationRoutes.checkCitationRoute
        (fun _ => ⟨false, 0, Source.none, Option.none, [], CitationStatus.skip⟩)
        ⟨Option.none, Option.none, Option.none, Option.none, [], Option.none, Option.none⟩ =
      Except.error 400 :=
  C10_no_identifier_skip (fun _ _ => 1)
    CrossRefLookupResult.not_found OpenAlexLookupResult.not_found [] []
    (fun _ => ⟨false, 0, Source.none, Option.none, [], CitationStatus.skip⟩)
    ⟨Option.none, Option.none, Option.none, Option.none, [], Option.none, Option.none⟩
    (by with_unfolding_all decide) (by with_unfolding_all decide)

/-- C1: the claim's table does not hold of every DOI-path verification:
the extension's `checkByDoi` maps primary `not_found` / secondary `error`
to top-level status `skip` with no validation payload, not to the claimed
`fake-likely` with a critical `doi` discrepancy. -/
theorem C1_orchestrator_counterexample :
    (ApiClient.checkByDoi
        (fun w : MatchedData => w) (fun w : MatchedData => w) (fun _ => Option.none)
        ⟨some "10.1/x", Option.none, Option.none, Option.none, [], Option.none, Option.none⟩
        ApiClient.ExtLookup.not_found ApiClient.ExtLookup.error).status =
      CitationStatus.skip ∧
    CitationStatus.skip ≠ CitationStatus.fakeLikely ∧
    (ApiClient.checkByDoi
        (fun w : MatchedData => w) (fun w : MatchedData => w) (fun _ => Option.none)
        ⟨some "10.1/x", Option.none, Option.none, Option.none, [], Option.none, Option.none⟩
        ApiClient.ExtLookup.not_found ApiClient.ExtLookup.error).validation =
      Option.none := by
  with_unfolding_all decide

/-- C1 (amended): the backend orchestrator `validateByDoi` maps all nine
primary×secondary outcome pairs exactly per the table (found → exists,
confidence 1, source primary; not_found/error with secondary found →
source secondary; the three pairs containing a `not_found` with no
`found` → critical `doi` discrepancy and `fake-likely`; error/error →
empty discrepancies and `skip`).  The extension's `checkByDoi` agrees,
except that both not_found/error and error/error yield top-level `skip`
with no validation payload. -/
theorem C1_orchestrator_amended :
    ((∀ (sim : String → String → ℚ) (c : CitationInput) (w : CrossRefWork)
        (oa : OpenAlexLookupResult),
      (CitationValidatorService.validateByDoi sim c
        (CrossRefLookupResult.found w) oa).exists_ = true ∧
      (CitationValidatorService.validateByDoi sim c
        (CrossRefLookupResult.found w) oa).confidence = 1 ∧
      (CitationValidatorService.validateByDoi sim c
        (CrossRefLookupResult.found w) oa).source = Source.crossref ∧
      (CitationValidatorService.validateByDoi sim c
        (CrossRefLookupResult.found w) oa).status = CitationStatus.verified) ∧
    (∀ (sim : String → String → ℚ) (c : CitationInput) (w : OpenAlexWork),
      (CitationValidatorService.validateByDoi sim c CrossRefLookupResult.not_found
        (OpenAlexLookupResult.found w)).exists_ = true ∧
      (CitationValidatorService.validateByDoi sim c CrossRefLookupResult.not_found
        (OpenAlexLookupResult.found w)).confidence = 1 ∧
      (CitationValidatorService.validateByDoi sim c CrossRefLookupResult.not_found
        (OpenAlexLookupResult.found w)).source = Source.openalex ∧
      (CitationValidatorService.validateByDoi sim c CrossRefLookupResult.not_found
        (OpenAlexLookupResult.found w)).status = CitationStatus.verified) ∧
    (∀ (sim : String → String → ℚ) (c : CitationInput),
      CitationValidatorService.validateByDoi sim c CrossRefLookupResult.not_found
        OpenAlexLookupResult.not_found =
      ⟨false, 0, Source.none, Option.none,
        [⟨FieldName.doi, c.doi.getD "", "NOT FOUND", Severity.critical⟩],
        CitationStatus.fakeLikely⟩) ∧
    (∀ (sim : String → String → ℚ) (c : CitationInput) (m : String),
      CitationValidatorService.validateByDoi sim c CrossRefLookupResult.not_found
        (OpenAlexLookupResult.error m) =
      ⟨false, 0, Source.none, Option.none,
        [⟨FieldName.doi, c.doi.getD "",
          "NOT FOUND IN CROSSREF, OPENALEX ERROR", Severity.critical⟩],
        CitationStatus.fakeLikely⟩) ∧
    (∀ (sim : String → String → ℚ) (c : CitationInput) (m : String)
        (w : OpenAlexWork),
      (CitationValidatorService.validateByDoi sim c (CrossRefLookupResult.error m)
        (OpenAlexLookupResult.found w)).exists_ = true ∧
      (CitationValidatorService.validateByDoi sim c (CrossRefLookupResult.error m)
        (OpenAlexLookupResult.found w)).confidence = 1 ∧
      (CitationValidatorService.validateByDoi sim c (CrossRefLookupResult.error m)
        (OpenAlexLookupResult.found w)).source = Source.openalex ∧
      (CitationValidatorService.validateByDoi sim c (CrossRefLookupResult.error m)
        (OpenAlexLookupResult.found w)).status = CitationStatus.verified) ∧
    (∀ (sim : String → String → ℚ) (c : CitationInput) (m : String),
      CitationValidatorService.validateByDoi sim c (CrossRefLookupResult.error m)
        OpenAlexLookupResult.not_found =
      ⟨false, 0, Source.none, Option.none,
        [⟨FieldName.doi, c.doi.getD "", "NOT FOUND", Severity.critical⟩],
        CitationStatus.fakeLikely⟩) ∧
    (∀ (sim : String → String → ℚ) (c : CitationInput) (m m' : String),
      CitationValidatorService.validateByDoi sim c (CrossRefLookupResult.error m)
        (OpenAlexLookupResult.error m') =
      ⟨false, 0, Source.none, Option.none, [], CitationStatus.skip⟩)) ∧
    ((∀ {CW OW : Type} (toMDcr : CW → MatchedData) (toMDoa : OW → MatchedData)
        (retr : CW → Option RetractionDetails) (c : CitationInput),
      truthyStr c.doi = true →
      (∀ (w : CW) (oa : ApiClient.ExtLookup OW), ∃ v,
        (ApiClient.checkByDoi toMDcr toMDoa retr c
          (ApiClient.ExtLookup.found w) oa).validation = some v ∧
        v.exists_ = true ∧ v.confidence = 1 ∧ v.source = Source.crossref) ∧
      (∀ (w : OW), ∃ v,
        (ApiClient.checkByDoi toMDcr toMDoa retr c ApiClient.ExtLookup.not_found
          (ApiClient.ExtLookup.found w)).validation = some v ∧
        v.exists_ = true ∧ v.confidence = 1 ∧ v.source = Source.openalex ∧
        v.status = CitationStatus.verified) ∧
      (ApiClient.checkByDoi toMDcr toMDoa retr c ApiClient.ExtLookup.not_found
          ApiClient.ExtLookup.not_found =
        ⟨CitationStatus.fakeLikely, false, Option.none,
          some ⟨false, 0, Source.none, Option.none,
            [⟨FieldName.doi, c.doi.getD "", "NOT FOUND", Severity.critical⟩],
            CitationStatus.fakeLikely⟩⟩) ∧
      (ApiClient.checkByDoi toMDcr toMDoa retr c ApiClient.ExtLookup.not_found
          ApiClient.ExtLookup.error = ApiClient.skipNullResult) ∧
      (∀ (w : OW), ∃ v,
        (ApiClient.checkByDoi toMDcr toMDoa retr c ApiClient.ExtLookup.error
          (ApiClient.ExtLookup.found w)).validation = some v ∧
        v.exists_ = true ∧ v.confidence = 1 ∧ v.source = Source.openalex ∧
        v.status = CitationStatus.verified) ∧
      (ApiClient.checkByDoi toMDcr toMDoa retr c ApiClient.ExtLookup.error
          ApiClient.ExtLookup.not_found =
        ⟨CitationStatus.fakeLikely, false, Option.none,
          some ⟨false, 0, Source.none, Option.none,
            [⟨FieldName.doi, c.doi.getD "", "NOT FOUND", Severity.critical⟩],
            CitationStatus.fakeLikely⟩⟩) ∧
      (ApiClient.checkByDoi toMDcr toMDoa retr c ApiClient.ExtLookup.error
          ApiClient.ExtLookup.error = ApiClient.skipNullResult))) := by
  refine ⟨⟨?_, ?_, ?_, ?_, ?_, ?_, ?_⟩, ?_⟩
  · intro sim c w oa
    exact ⟨rfl, rfl, rfl, rfl⟩
  · intro sim c w
    exact ⟨rfl, rfl, rfl, rfl⟩
  · intro sim c
    rfl
  · intro sim c m
    rfl
  · intro sim c m w
    exact ⟨rfl, rfl, rfl, rfl⟩
  · intro sim c m
    rfl
  · intro sim c m m'
    rfl
  · intro CW OW toMDcr toMDoa retr c hd
    refine ⟨?_, ?_, ?_, ?_, ?_, ?_, ?_⟩
    · intro w oa
      cases hr : retr w with
      | none =>
        exact ⟨⟨true, 1, Source.crossref, some (toMDcr w),
          ApiClient.compareMetadata c (toMDcr w), CitationStatus.verified⟩,
          by simp [ApiClient.checkByDoi, hd, hr], rfl, rfl, rfl⟩
      | some details =>
        exact ⟨⟨true, 1, Source.crossref, some (toMDcr w),
          ApiClient.compareMetadata c (toMDcr w), CitationStatus.retracted⟩,
          by simp [ApiClient.checkByDoi, hd, hr], rfl, rfl, rfl⟩
    · intro w
      exact ⟨⟨true, 1, Source.openalex, some (toMDoa w),
        ApiClient.compareMetadata c (toMDoa w), CitationStatus.verified⟩,
        by simp [ApiClient.checkByDoi, hd], rfl, rfl, rfl, rfl⟩
    · simp [ApiClient.checkByDoi, hd]
    · simp [ApiClient.checkByDoi, hd]
    · intro w
      exact ⟨⟨true, 1, Source.openalex, some (toMDoa w),
        ApiClient.compareMetadata c (toMDoa w), CitationStatus.verified⟩,
        by simp [ApiClient.checkByDoi, hd], rfl, rfl, rfl, rfl⟩
    · simp [ApiClient.checkByDoi, hd]
    · simp [ApiClient.checkByDoi, hd]

/-- C1 (witness): the amended table's extension rows applied at a
concrete citation with a present DOI (the not_found/not_found row). -/
theorem C1_orchestrator_amended_witness :
    ApiClient.checkByDoi
        (fun w : MatchedData => w) (fun w : MatchedData => w) (fun _ => Option.none)
        ⟨some "10.1/x", Option.none, Option.none, Option.none, [], Option.none, Option.none⟩
        ApiClient.ExtLookup.not_found ApiClient.ExtLookup.not_found =
      ⟨CitationStatus.fakeLikely, false, Option.none,
        some ⟨false, 0, Source.none, Option.none,
          [⟨FieldName.doi, "10.1/x", "NOT FOUND", Severity.critical⟩],
          CitationStatus.fakeLikely⟩⟩ :=
  ((C1_orchestrator_amended.2 (fun w => w) (fun w => w) (fun _ => Option.none)
      ⟨some "10.1/x", Option.none, Option.none, Option.none, [], Option.none, Option.none⟩
      (by with_unfolding_all decide)).2.2.1)

/-- C3: the claim fails for the legacy null-returning
`CrossRefService.getWork`, which collapses failures onto the same `null`
that represents a 404: a thrown network exception and a non-404 HTTP
failure are indistinguishable from confirmed absence. -/
theorem C3_getWork_counterexample :
    LegacyCrossRefService.getWork (FetchOutcome.exn) = Option.none ∧
    LegacyCrossRefService.getWork (FetchOutcome.resp 500 Option.none) =
      Option.none ∧
    LegacyCrossRefService.getWork (FetchOutcome.resp 404 Option.none) =
      Option.none := by
  with_unfolding_all decide

/-- C3 (amended): the three-way `getWork` variants (current CrossRef and
OpenAlex services) return `not_found` exactly on HTTP 404 and `error` on
every other failure; the legacy null-returning CrossRef variant maps both
404 and every failure to `null`, conflating the two. -/
theorem C3_getWork_mapping :
    (∀ (o : FetchOutcome CrossRefWork),
      CrossRefService.getWork o = CrossRefLookupResult.not_found ↔ o.isAbsent) ∧
    (∀ (o : FetchOutcome CrossRefWork), o.isFailure →
      ∃ m, CrossRefService.getWork o = CrossRefLookupResult.error m) ∧
    (∀ (o : FetchOutcome OpenAlexWork),
      OpenAlexService.getWork o = OpenAlexLookupResult.not_found ↔ o.isAbsent) ∧
    (∀ (o : FetchOutcome OpenAlexWork), o.isFailure →
      ∃ m, OpenAlexService.getWork o = OpenAlexLookupResult.error m) ∧
    (∀ (body : Option CrossRefWork),
      LegacyCrossRefService.getWork (FetchOutcome.resp 404 body) = Option.none) ∧
    (∀ (o : FetchOutcome CrossRefWork), o.isFailure →
      LegacyCrossRefService.getWork o = Option.none) := by
  refine ⟨?_, ?_, ?_, ?_, ?_, ?_⟩
  · intro o
    cases o with
    | exn => simp [CrossRefService.getWork, FetchOutcome.isAbsent]
    | resp s b =>
      by_cases h : s = 404
      · subst h
        simp [CrossRefService.getWork, FetchOutcome.isAbsent]
      · have hb : (s == 404) = false := by simpa using h
        cases b with
        | none =>
          by_cases hok : respOk s <;>
            simp [CrossRefService.getWork, FetchOutcome.isAbsent, hb, hok, h]
        | some w =>
          by_cases hok : respOk s <;>
            simp [CrossRefService.getWork, FetchOutcome.isAbsent, hb, hok, h]
  · intro o hf
    rcases hf with rfl | ⟨s, b, rfl, h404, hok⟩ | ⟨s, rfl, hok⟩
    · exact ⟨"Unknown error", rfl⟩
    · have hb : (s == 404) = false := by simpa using h404
      exact ⟨"CrossRef API error: " ++ toString s,
        by simp [CrossRefService.getWork, hb, hok]⟩
    · have h404 : s ≠ 404 := by
        intro h
        subst h
        simp [respOk] at hok
      have hb : (s == 404) = false := by simpa using h404
      exact ⟨"Unknown error", by simp [CrossRefService.getWork, hb, hok]⟩
  · intro o
    cases o with
    | exn => simp [OpenAlexService.getWork, FetchOutcome.isAbsent]
    | resp s b =>
      by_cases h : s = 404
      · subst h
        simp [OpenAlexService.getWork, FetchOutcome.isAbsent]
      · have hb : (s == 404) = false := by simpa using h
        cases b with
        | none =>
          by_cases hok : respOk s <;>
            simp [OpenAlexService.getWork, FetchOutcome.isAbsent, hb, hok, h]
        | some w =>
          by_cases hok : respOk s <;>
            simp [OpenAlexService.getWork, FetchOutcome.isAbsent, hb, hok, h]
  · intro o hf
    rcases hf with rfl | ⟨s, b, rfl, h404, hok⟩ | ⟨s, rfl, hok⟩
    · exact ⟨"Unknown error", rfl⟩
    · have hb : (s == 404) = false := by simpa using h404
      exact ⟨"OpenAlex API error: " ++ toString s,
        by simp [OpenAlexService.getWork, hb, hok]⟩
    · have h404 : s ≠ 404 := by
        intro h
        subst h
        simp [respOk] at hok
      have hb : (s == 404) = false := by simpa using h404
      exact ⟨"Unknown error", by simp [OpenAlexService.getWork, hb, hok]⟩
  · intro body
    rfl
  · intro o hf
    rcases hf with rfl | ⟨s, b, rfl, h404, hok⟩ | ⟨s, rfl, hok⟩
    · rfl
    · have hb : (s == 404) = false := by simpa using h404
      simp [LegacyCrossRefService.getWork, hb, hok]
    · have h404 : s ≠ 404 := by
        intro h
        subst h
        simp [respOk] at hok
      have hb : (s == 404) = false := by simpa using h404
      simp [LegacyCrossRefService.getWork, hb, hok]

/-- C3 (witness): the failure clauses applied at the concrete thrown
outcome: both current services report `error`, the legacy variant
reports `null`. -/
theorem C3_getWork_mapping_witness :
    (∃ m, CrossRefService.getWork (FetchOutcome.exn) =
      CrossRefLookupResult.error m) ∧
    (∃ m, OpenAlexService.getWork (FetchOutcome.exn) =
      OpenAlexLookupResult.error m) ∧
    LegacyCrossRefService.getWork (FetchOutcome.exn) = Option.none :=
  ⟨C3_getWork_mapping.2.1 FetchOutcome.exn (Or.inl rfl),
    C3_getWork_mapping.2.2.2.1 FetchOutcome.exn (Or.inl rfl),
    C3_getWork_mapping.2.2.2.2.2 FetchOutcome.exn (Or.inl rfl)⟩

theorem toBatches_join {α : Type} (l : List α) : (toBatches l).flatten = l := by
  generalize hn : l.length = n
  induction n using Nat.strong_induction_on generalizing l with
  | _ n ih =>
    cases l with
    | nil => simp [toBatches]
    | cons x xs =>
      have hlt : ((x :: xs).drop 5).length < n := by
        subst hn
        simp only [List.length_drop, List.length_cons]
        omega
      have hrec := ih ((x :: xs).drop 5).length hlt _ rfl
      rw [toBatches, List.flatten_cons, hrec]
      exact List.take_append_drop 5 (x :: xs)

theorem foldl_join {α β : Type} (g : β → α → β) (L : List (List α))
    (init : β) :
    L.foldl (fun m b => b.foldl g m) init = L.flatten.foldl g init := by
  induction L generalizing init with
  | nil => rfl
  | cons b L ih => simp [List.flatten_cons, List.foldl_append, ih]

/-- The windowed batch fold is the plain in-order fold of `Map.set`. -/
theorem checkBatch_eq_foldl (check : ExtractedCitation → FullCheckResult)
    (cs : List ExtractedCitation) :
    ApiClient.checkBatch check cs =
      cs.foldl (fun m c => mapSet m c.id (check c)) [] := by
  unfold ApiClient.checkBatch
  simp only [List.foldl_map]
  rw [foldl_join, toBatches_join]

theorem mem_mapKeys {β : Type} (m : List (String × β)) (k : String) :
    k ∈ mapKeys m ↔ m.any (fun p => p.1 == k) = true := by
  simp only [mapKeys, List.mem_map, List.any_eq_true, beq_iff_eq]

theorem mapKeys_mapSet {β : Type} (m : List (String × β)) (k : String)
    (v : β) :
    mapKeys (mapSet m k v) =
      if m.any (fun p => p.1 == k) then mapKeys m else mapKeys m ++ [k] := by
  unfold mapSet mapKeys
  by_cases h : m.any (fun p => p.1 == k)
  · rw [if_pos h, if_pos h, List.map_map]
    apply List.map_congr_left
    intro p _
    by_cases hk : p.1 == k
    · have : p.1 = k := by simpa using hk
      simp [hk, this]
    · have hne : p.1 ≠ k := by simpa using hk
      simp [hk, hne]
  · rw [if_neg h, if_neg h, List.map_append]
    rfl

theorem length_mapSet {β : Type} (m : List (String × β)) (k : String)
    (v : β) :
    (mapSet m k v).length =
      if m.any (fun p => p.1 == k) then m.length else m.length + 1 := by
  unfold mapSet
  by_cases h : m.any (fun p => p.1 == k) <;> simp [h]

theorem mem_mapKeys_mapSet {β : Type} (m : List (String × β)) (k k' : String)
    (v : β) :
    k' ∈ mapKeys (mapSet m k v) ↔ k' ∈ mapKeys m ∨ k' = k := by
  rw [mapKeys_mapSet]
  by_cases h : m.any (fun p => p.1 == k)
  · rw [if_pos h]
    constructor
    · exact Or.inl
    · rintro (hm | rfl)
      · exact hm
      · exact (mem_mapKeys m k').mpr h
  · rw [if_neg h]
    simp [List.mem_append]

theorem foldl_mapSet_mem_keys (check : ExtractedCitation → FullCheckResult)
    (cs : List ExtractedCitation) (m : List (String × FullCheckResult))
    (k : String) :
    k ∈ mapKeys (cs.foldl (fun m c => mapSet m c.id (check c)) m) ↔
      k ∈ mapKeys m ∨ ∃ c ∈ cs, c.id = k := by
  induction cs generalizing m with
  | nil => simp
  | cons c cs ih =>
    simp only [List.foldl_cons, ih, mem_mapKeys_mapSet, List.mem_cons]
    constructor
    · rintro ((hm | rfl) | ⟨c', hc', rfl⟩)
      · exact Or.inl hm
      · exact Or.inr ⟨c, Or.inl rfl, rfl⟩
      · exact Or.inr ⟨c', Or.inr hc', rfl⟩
    · rintro (hm | ⟨c', hc', rfl⟩)
      · exact Or.inl (Or.inl hm)
      · cases hc' with
        | inl h => exact Or.inl (Or.inr (by rw [h]))
        | inr h => exact Or.inr ⟨c', h, rfl⟩

theorem foldl_mapSet_length (check : ExtractedCitation → FullCheckResult)
    (cs : List ExtractedCitation) (m : List (String × FullCheckResult))
    (hnd : (cs.map (fun c => c.id)).Nodup)
    (hdisj : ∀ c ∈ cs, c.id ∉ mapKeys m) :
    (cs.foldl (fun m c => mapSet m c.id (check c)) m).length =
      m.length + cs.length := by
  induction cs generalizing m with
  | nil => simp
  | cons c cs ih =>
    simp only [List.map_cons, List.nodup_cons] at hnd
    have hcm : c.id ∉ mapKeys m := hdisj c (List.mem_cons_self c cs)
    have hany : m.any (fun p => p.1 == c.id) = false := by
      cases hb : m.any (fun p => p.1 == c.id) with
      | false => rfl
      | true => exact absurd ((mem_mapKeys m c.id).mpr hb) hcm
    have hstep : ∀ c' ∈ cs, c'.id ∉ mapKeys (mapSet m c.id (check c)) := by
      intro c' hc'
      rw [mem_mapKeys_mapSet]
      rintro (hm | he)
      · exact hdisj c' (List.mem_cons_of_mem c hc') hm
      · exact hnd.1 (he ▸ List.mem_map_of_mem (fun x => x.id) hc')
    rw [List.foldl_cons, ih (mapSet m c.id (check c)) hnd.2 hstep,
      length_mapSet, hany]
    rw [if_neg (by decide : ¬ (false = true))]
    simp only [List.length_cons]
    omega

/-- C8: the extension's `checkBatch` returns a `Map` keyed by citation
id, not an index-aligned array: on two inputs sharing an id it returns a
single entry, so the result does not have the length of the input. -/
theorem C8_checkBatch_counterexample :
    (ApiClient.checkBatch
        (fun c => ApiClient.checkCitation
          (fun w : MatchedData => w) (fun w : MatchedData => w) (fun _ => Option.none)
          ⟨c.doi, c.pmid, c.url, c.title, c.authors, c.year, c.journal⟩
          ApiClient.ExtLookup.error ApiClient.ExtLookup.error
          ApiClient.UrlCheckResult.error)
        [⟨"a", Option.none, Option.none, Option.none, Option.none, [], Option.none, Option.none⟩,
         ⟨"a", Option.none, Option.none, Option.none, Option.none, [], Option.none, Option.none⟩]).length ≠
      ([⟨"a", Option.none, Option.none, Option.none, Option.none, [], Option.none, Option.none⟩,
        ⟨"a", Option.none, Option.none, Option.none, Option.none, [], Option.none, Option.none⟩] :
          List ExtractedCitation).length := by
  with_unfolding_all decide

/-- C8 (amended): the backend `/check/batch` route returns, for every
accepted (non-empty, ≤ 50 items) request, an array exactly as long as
`items` and index-correspondent to it.  The extension's `checkBatch`
instead returns a `Map` keyed by citation id: its key set is exactly the
set of input ids, and its size equals the input length only when the ids
are pairwise distinct. -/
theorem C8_checkBatch_amended :
    (∀ (retractionCheck : CitationInput → Option RetractionDetails)
        (validateFn : CitationInput → CitationValidationResponse)
        (items : List CitationInput),
      items ≠ [] → items.length ≤ 50 →
      CitationRoutes.checkBatchRoute retractionCheck validateFn items =
        Except.ok (items.map
          (CitationRoutes.batchItemStep retractionCheck validateFn)) ∧
      (items.map (CitationRoutes.batchItemStep retractionCheck validateFn)).length =
        items.length ∧
      ∀ i : Nat,
        (items.map (CitationRoutes.batchItemStep retractionCheck validateFn))[i]? =
          (items[i]?).map (CitationRoutes.batchItemStep retractionCheck validateFn)) ∧
    (∀ (check : ExtractedCitation → FullCheckResult)
        (cs : List ExtractedCitation) (k : String),
      k ∈ mapKeys (ApiClient.checkBatch check cs) ↔ ∃ c ∈ cs, c.id = k) ∧
    (∀ (check : ExtractedCitation → FullCheckResult)
        (cs : List ExtractedCitation),
      (cs.map (fun c => c.id)).Nodup →
      (ApiClient.checkBatch check cs).length = cs.length) := by
  refine ⟨?_, ?_, ?_⟩
  · intro retractionCheck validateFn items hne hle
    have hempty : items.isEmpty = false := by
      cases items with
      | nil => exact absurd rfl hne
      | cons x xs => rfl
    have hgt : ¬ items.length > 50 := by omega
    refine ⟨?_, List.length_map items _, ?_⟩
    · unfold CitationRoutes.checkBatchRoute
      rw [hempty, if_neg hgt]
      rfl
    · intro i
      exact List.getElem?_map _ _ i
  · intro check cs k
    rw [checkBatch_eq_foldl]
    simpa [mapKeys] using foldl_mapSet_mem_keys check cs [] k
  · intro check cs hnd
    rw [checkBatch_eq_foldl]
    simpa using foldl_mapSet_length check cs [] hnd (by simp [mapKeys])

/-- C8 (witness): the amended batch properties applied at a concrete
singleton request / a concrete two-element id-distinct batch. -/
theorem C8_checkBatch_amended_witness :
    CitationRoutes.checkBatchRoute (fun _ => Option.none)
        (fun _ => ⟨false, 0, Source.none, Option.none, [], CitationStatus.skip⟩)
        [⟨some "10.1/x", Option.none, Option.none, Option.none, [], Option.none, Option.none⟩] =
      Except.ok [CitationRoutes.batchItemStep (fun _ => Option.none)
        (fun _ => ⟨false, 0, Source.none, Option.none, [], CitationStatus.skip⟩)
        ⟨some "10.1/x", Option.none, Option.none, Option.none, [], Option.none, Option.none⟩] ∧
    (ApiClient.checkBatch (fun _ => ApiClient.skipNullResult)
        [⟨"a", Option.none, Option.none, Option.none, Option.none, [], Option.none, Option.none⟩,
         ⟨"b", Option.none, Option.none, Option.none, Option.none, [], Option.none, Option.none⟩]).length = 2 := by
  constructor
  · exact (C8_checkBatch_amended.1 (fun _ => Option.none)
      (fun _ => ⟨false, 0, Source.none, Option.none, [], CitationStatus.skip⟩)
      [⟨some "10.1/x", Option.none, Option.none, Option.none, [], Option.none, Option.none⟩]
      (by with_unfolding_all decide) (by with_unfolding_all decide)).1
  · exact C8_checkBatch_amended.2.2 (fun _ => ApiClient.skipNullResult)
      [⟨"a", Option.none, Option.none, Option.none, Option.none, [], Option.none, Option.none⟩,
       ⟨"b", Option.none, Option.none, Option.none, Option.none, [], Option.none, Option.none⟩]
      (by with_unfolding_all decide)

/-- C5 (witness): the conditional idempotence applied to the concrete
inputs `"10.1000/182"` and `"10.1/b"`. -/
theorem C5_normalizeDoi_idem_witness :
    CrossRefService.normalizeDoi
        (CrossRefService.normalizeDoi "10.1000/182") =
      CrossRefService.normalizeDoi "10.1000/182" ∧
    DoiExtractor.normalizeDoi (DoiExtractor.normalizeDoi "10.1/b") =
      DoiExtractor.normalizeDoi "10.1/b" :=
  ⟨C5_normalizeDoi_idem_amended.1 "10.1000/182"
      (by with_unfolding_all decide) (by with_unfolding_all decide),
    C5_normalizeDoi_idem_amended.2 "10.1/b" (by with_unfolding_all decide)⟩

end Citicious

